import Mathlib

/-!
Verification of the DatabuzzOxxo location-scoring backend.

This file gives a shallow embedding, in Lean 4, of the core of the backend
found under `backend/app`: the pydantic data model (`app/models/location.py`),
the feature-encoding pipeline (`app/services/data_service.py`), and the
scoring / ranking / heatmap logic (`app/services/prediction_service.py`).
Python floats are modelled by exact rationals (`ℚ`); the logistic success
probability, which uses `np.exp`, is modelled over the reals (`ℝ`).
The trained regression model is an opaque external capability, so the
predicted performance ratio enters every definition as a parameter.
-/

/-! ## Categorical enumerations

The three closed enumerations of `StoreLocation` (`app/models/location.py`,
validators `validate_nivel_socioeconomico`, `validate_entorno`,
`validate_segmento_maestro`).  Each canonical list below is written in the
same order as the Python `allowed_values` lists, which are lexicographically
sorted; this matters because `pd.get_dummies` emits indicator columns for the
sorted unique values of a column. -/

/-- Socioeconomic level: the closed 7-value enumeration
`['A', 'AB', 'B', 'BC', 'C', 'CD', 'D']`. -/
inductive Nivel
  | A | AB | B | BC | C | CD | D
deriving DecidableEq, Fintype

/-- Environment type: the closed 4-value enumeration
`['Base', 'Hogar', 'Peatonal', 'Receso']`. -/
inductive Entorno
  | Base | Hogar | Peatonal | Receso
deriving DecidableEq, Fintype

/-- Master segment: the closed 5-value enumeration `['Barrio Competido',
'Clásico', 'Hogar Reunión', 'Oficinistas', 'Parada Técnica']`. -/
inductive Segmento
  | BarrioCompetido | Clasico | HogarReunion | Oficinistas | ParadaTecnica
deriving DecidableEq, Fintype

/-- The canonical `nivelSocioeconomico` categories, in the (lexicographic)
order of the Python `allowed_values` list. -/
def nivelCats : List Nivel := [.A, .AB, .B, .BC, .C, .CD, .D]

/-- The canonical `entorno` categories, in the order of `allowed_values`. -/
def entornoCats : List Entorno := [.Base, .Hogar, .Peatonal, .Receso]

/-- The canonical `segmentoMaestro` categories, in the order of
`allowed_values`. -/
def segmentoCats : List Segmento :=
  [.BarrioCompetido, .Clasico, .HogarReunion, .Oficinistas, .ParadaTecnica]

/-- The raw strings accepted by the `nivelSocioeconomico` validator. -/
def nivelStrings : List String := ["A", "AB", "B", "BC", "C", "CD", "D"]

/-- The raw strings accepted by the `entorno` validator. -/
def entornoStrings : List String := ["Base", "Hogar", "Peatonal", "Receso"]

/-- The raw strings accepted by the `segmentoMaestro` validator. -/
def segmentoStrings : List String :=
  ["Barrio Competido", "Clásico", "Hogar Reunión", "Oficinistas", "Parada Técnica"]

/-- Decode a raw `nivelSocioeconomico` string; `none` exactly on strings
outside the closed enumeration (the pydantic validator raises there). -/
def nivelOfString (s : String) : Option Nivel :=
  if s = "A" then some .A
  else if s = "AB" then some .AB
  else if s = "B" then some .B
  else if s = "BC" then some .BC
  else if s = "C" then some .C
  else if s = "CD" then some .CD
  else if s = "D" then some .D
  else none

/-- Decode a raw `entorno` string; `none` outside the closed enumeration. -/
def entornoOfString (s : String) : Option Entorno :=
  if s = "Base" then some .Base
  else if s = "Hogar" then some .Hogar
  else if s = "Peatonal" then some .Peatonal
  else if s = "Receso" then some .Receso
  else none

/-- Decode a raw `segmentoMaestro` string; `none` outside the closed
enumeration. -/
def segmentoOfString (s : String) : Option Segmento :=
  if s = "Barrio Competido" then some .BarrioCompetido
  else if s = "Clásico" then some .Clasico
  else if s = "Hogar Reunión" then some .HogarReunion
  else if s = "Oficinistas" then some .Oficinistas
  else if s = "Parada Técnica" then some .ParadaTecnica
  else none

/-- The string an `Entorno` value prints as (used as the key of the sales
target lookup, `location.entorno` in the Python source). -/
def entornoToString : Entorno → String
  | .Base => "Base"
  | .Hogar => "Hogar"
  | .Peatonal => "Peatonal"
  | .Receso => "Receso"

/-! ## Store locations -/

/-- A raw (unvalidated) store-location record, as submitted to the pydantic
`StoreLocation` constructor: categorical fields are still strings. -/
structure RawStoreLocation where
  tiendaId : Option ℤ
  plazaCve : ℤ
  nivelSocioeconomico : String
  entorno : String
  mts2Ventas : ℚ
  puertasRefrig : ℤ
  cajonesEstacionamiento : ℤ
  latitud : ℚ
  longitud : ℚ
  segmentoMaestro : String
deriving DecidableEq

/-- A validated `StoreLocation`: categorical fields live in the closed
enumerations, numeric fields have passed the pydantic field constraints. -/
structure StoreLocationData where
  tiendaId : Option ℤ
  plazaCve : ℤ
  nivelSocioeconomico : Nivel
  entorno : Entorno
  mts2Ventas : ℚ
  puertasRefrig : ℤ
  cajonesEstacionamiento : ℤ
  latitud : ℚ
  longitud : ℚ
  segmentoMaestro : Segmento
deriving DecidableEq

/-- The numeric field constraints of `StoreLocation`: `plazaCve ≥ 1`,
`mts2Ventas > 0`, `puertasRefrig ≥ 0`, `cajonesEstacionamiento ≥ 0`,
`latitud` in `[0, 90]` (Field) and `[14, 33]` (validator), `longitud` in
`[-180, 180]` (Field) and `[-118.5, -86.5]` (validator). -/
def numericFieldsOk (raw : RawStoreLocation) : Prop :=
  1 ≤ raw.plazaCve ∧ 0 < raw.mts2Ventas ∧ 0 ≤ raw.puertasRefrig ∧
    0 ≤ raw.cajonesEstacionamiento ∧
    0 ≤ raw.latitud ∧ raw.latitud ≤ 90 ∧ 14 ≤ raw.latitud ∧ raw.latitud ≤ 33 ∧
    -180 ≤ raw.longitud ∧ raw.longitud ≤ 180 ∧
    -(237/2) ≤ raw.longitud ∧ raw.longitud ≤ -(173/2)

instance (raw : RawStoreLocation) : Decidable (numericFieldsOk raw) := by
  unfold numericFieldsOk; infer_instance

/-- Constructing a pydantic `StoreLocation`: every field validator must
succeed, otherwise construction raises a `ValidationError` (modelled as
`none`). -/
def parseStoreLocation (raw : RawStoreLocation) : Option StoreLocationData := do
  let niv ← nivelOfString raw.nivelSocioeconomico
  let ent ← entornoOfString raw.entorno
  let seg ← segmentoOfString raw.segmentoMaestro
  if numericFieldsOk raw then
    some ⟨raw.tiendaId, raw.plazaCve, niv, ent, raw.mts2Ventas, raw.puertasRefrig,
      raw.cajonesEstacionamiento, raw.latitud, raw.longitud, seg⟩
  else none

/-! ## Feature encoding (`DataService`)

`get_training_data` builds the canonical feature frame from the loaded
combined dataset: six numeric columns followed by
`pd.get_dummies(df[['nivelSocioeconomico', 'entorno', 'segmentoMaestro']],
drop_first=True)`.  Only the three categorical columns of the combined frame
influence which dummy columns exist, so a training record is modelled by its
categorical values (the data model fixes them to the closed enumerations).
`get_dummies` emits one indicator column per *sorted unique value present in
the loaded data* and `drop_first=True` removes the first of those, per
column; since each canonical list above is lexicographically sorted, the
emitted categories are the present ones in canonical order, minus the head
of that (present) list. -/

/-- A row of the combined training frame, restricted to the columns that
determine the dummy-column inventory. -/
structure TrainRecord where
  niv : Nivel
  ent : Entorno
  seg : Segmento
deriving DecidableEq

/-- The `nivelSocioeconomico` categories present in the loaded dataset, in
sorted (canonical) order — the unique values `pd.get_dummies` sees. -/
def presentNivel (ds : List TrainRecord) : List Nivel :=
  nivelCats.filter (fun c => ds.any (fun r => decide (r.niv = c)))

/-- The `entorno` categories present in the loaded dataset, sorted. -/
def presentEntorno (ds : List TrainRecord) : List Entorno :=
  entornoCats.filter (fun c => ds.any (fun r => decide (r.ent = c)))

/-- The `segmentoMaestro` categories present in the loaded dataset, sorted. -/
def presentSegmento (ds : List TrainRecord) : List Segmento :=
  segmentoCats.filter (fun c => ds.any (fun r => decide (r.seg = c)))

/-- Dummy columns for `nivelSocioeconomico` in the training frame:
`drop_first=True` removes the first present category. -/
def trainNivelCols (ds : List TrainRecord) : List Nivel :=
  (presentNivel ds).drop 1

/-- Dummy columns for `entorno` in the training frame. -/
def trainEntornoCols (ds : List TrainRecord) : List Entorno :=
  (presentEntorno ds).drop 1

/-- Dummy columns for `segmentoMaestro` in the training frame. -/
def trainSegmentoCols (ds : List TrainRecord) : List Segmento :=
  (presentSegmento ds).drop 1

/-- A column of the feature frame: one of the six numeric columns, or an
indicator column `nivelSocioeconomico_c` / `entorno_c` /
`segmentoMaestro_c`. -/
inductive Col
  | plazaCve | mts2Ventas | puertasRefrig | cajonesEstacionamiento
  | latitud | longitud
  | niv (c : Nivel) | ent (c : Entorno) | seg (c : Segmento)
deriving DecidableEq

/-- The six numeric feature columns, in the order selected by
`get_training_data`. -/
def numericCols : List Col :=
  [.plazaCve, .mts2Ventas, .puertasRefrig, .cajonesEstacionamiento, .latitud, .longitud]

/-- The canonical column order of the training feature frame
(`X_train.columns.tolist()` in `store_location_to_features`): numeric
columns, then the dummy blocks of the three categorical attributes. -/
def featureOrder (ds : List TrainRecord) : List Col :=
  numericCols ++ (trainNivelCols ds).map Col.niv ++
    (trainEntornoCols ds).map Col.ent ++ (trainSegmentoCols ds).map Col.seg

/-- The value a validated location contributes to one feature column.
`store_location_to_features` builds the row as: the six numerics unchanged;
for a dummy column `attr_c`, the indicator of `location.attr == c` (the
location's own dummy is `1`, every other category — whether added as an
explicitly zero-filled canonical column or as a missing training column —
is `0`). -/
def colValue (loc : StoreLocationData) : Col → ℚ
  | .plazaCve => loc.plazaCve
  | .mts2Ventas => loc.mts2Ventas
  | .puertasRefrig => loc.puertasRefrig
  | .cajonesEstacionamiento => loc.cajonesEstacionamiento
  | .latitud => loc.latitud
  | .longitud => loc.longitud
  | .niv c => if loc.nivelSocioeconomico = c then 1 else 0
  | .ent c => if loc.entorno = c then 1 else 0
  | .seg c => if loc.segmentoMaestro = c then 1 else 0

/-- `DataService.store_location_to_features`: the single-row feature frame
for a validated location, with the column order re-derived from the loaded
dataset by a fresh call to `get_training_data`. -/
def store_location_to_features (ds : List TrainRecord) (loc : StoreLocationData) :
    List ℚ :=
  (featureOrder ds).map (colValue loc)

/-- The full encoding pipeline on a raw record: pydantic validation
followed by feature extraction; a `ValidationError` aborts the pipeline. -/
def encodePipeline (ds : List TrainRecord) (raw : RawStoreLocation) :
    Option (List ℚ) :=
  (parseStoreLocation raw).map (store_location_to_features ds)

/-! ## Target lookup and scorer (`PredictionService`) -/

/-- `DataService.get_sales_target_for_environment`: the first row of
`Meta_venta.csv` whose `ENTORNO_DES` equals the requested environment, or
`None` when no row matches. -/
def get_sales_target_for_environment (targets : List (String × ℚ)) (env : String) :
    Option ℚ :=
  (targets.find? (fun p => decide (p.1 = env))).map Prod.snd

/-- The expected-sales computation of `predict_location`:
`sales_target * performance_ratio if sales_target else 0` — Python
truthiness, so both a missing target and a zero target yield `0`. -/
def expectedSalesCalc : Option ℚ → ℚ → ℚ
  | some t, r => if t ≠ 0 then t * r else 0
  | none, _ => 0

/-- The score computation of `predict_location`:
`min(max(performance_ratio / 1.5, 0.0), 1.0)`. -/
def scoreCalc (r : ℚ) : ℚ :=
  min (max (r / (3/2)) 0) 1

/-- `PredictionService._calculate_success_probability`: `0` for
`performance_ratio <= 0`, otherwise the clamped logistic
`min(max(1 / (1 + exp(-5 * (ratio - 0.8))), 0.0), 1.0)`. -/
noncomputable def successProbability (r : ℚ) : ℝ :=
  if r ≤ 0 then 0
  else min (max (1 / (1 + Real.exp (-5 * ((r : ℝ) - 4/5)))) 0) 1

/-- `PredictionService._generate_recommendation`: the four score bands
(`≥ 0.8`, `≥ 0.6`, `≥ 0.4`, otherwise); the exact wording is a
presentation detail, only the band structure is kept. -/
def recommendationText (score : ℚ) : String :=
  if 4/5 ≤ score then "excelente potencial"
  else if 3/5 ≤ score then "buen potencial"
  else if 2/5 ≤ score then "potencial moderado"
  else "bajo potencial"

/-- The pydantic `PredictionResponse` payload. -/
structure PredictionResponse where
  score : ℚ
  expectedSales : ℚ
  probability : ℝ
  recommendation : String

/-- Constructing a pydantic `PredictionResponse`: the field constraints
`score ∈ [0, 1]`, `expectedSales ≥ 0`, `probability ∈ [0, 1]` are enforced
at construction; a violation raises a `ValidationError` (modelled as
`Except.error`, checked in field order). -/
noncomputable def mkPredictionResponse (score expectedSales : ℚ) (probability : ℝ)
    (recommendation : String) : Except String PredictionResponse :=
  if ¬ (0 ≤ score ∧ score ≤ 1) then Except.error "score out of range"
  else if ¬ (0 ≤ expectedSales) then Except.error "expectedSales out of range"
  else if ¬ ((0 : ℝ) ≤ probability ∧ probability ≤ 1) then
    Except.error "probability out of range"
  else Except.ok ⟨score, expectedSales, probability, recommendation⟩

/-- `PredictionService.predict_location`, downstream of the opaque
regression model: given the sales-target table and the model's predicted
performance ratio for the (already encoded) location, compute expected
sales, success probability, score and recommendation, and build the
response.  Any exception — including a response-validation failure — is
re-raised by the surrounding handler, modelled as `Except.error`. -/
noncomputable def predict_location (targets : List (String × ℚ)) (ratio : ℚ)
    (loc : StoreLocationData) : Except String PredictionResponse :=
  let salesTarget := get_sales_target_for_environment targets (entornoToString loc.entorno)
  let expectedSales := expectedSalesCalc salesTarget ratio
  let probability := successProbability ratio
  let score := scoreCalc ratio
  mkPredictionResponse score expectedSales probability (recommendationText score)

/-! ## Area aggregator (`get_optimal_locations`, heatmap) -/

/-- `PredictionService.get_optimal_locations`: score every store found in
the area, sort descending by score with Python's stable `list.sort`
(modelled by `insertionSort` with the reflexive descending relation, which
is stable), and keep the first five.  `f` is the store's prediction
score. -/
def get_optimal_locations {α β : Type} [LinearOrder β] (f : α → β)
    (stores : List α) : List α :=
  if stores.isEmpty then []
  else (stores.insertionSort (fun a b => f b ≤ f a)).take 5

/-- A heatmap `MapPoint`: coordinates, score and display color. -/
structure MapPoint where
  id : String
  lat : ℚ
  lng : ℚ
  score : ℚ
  color : String
deriving DecidableEq

/-- `PredictionService._get_color_for_score`: green for `score ≥ 0.8`,
blue for `score ≥ 0.6`, amber for `score ≥ 0.4`, red otherwise. -/
def getColorForScore (score : ℚ) : String :=
  if 4/5 ≤ score then "#10b981"
  else if 3/5 ≤ score then "#3b82f6"
  else if 2/5 ≤ score then "#f59e0b"
  else "#ef4444"

/-- The pydantic `MapBounds` payload (already validated). -/
structure MapBoundsQ where
  north : ℚ
  south : ℚ
  east : ℚ
  west : ℚ
deriving DecidableEq

/-- Constructing a pydantic `MapBounds`: the field constraints
(`north, south ∈ [0, 90]`, `east, west ∈ [-180, 180]`) and the model
validator (`north > south` and `east > west`, both strict, otherwise a
`ValidationError`). -/
def mkMapBounds (n s e w : ℚ) : Option MapBoundsQ :=
  if 0 ≤ n ∧ n ≤ 90 ∧ 0 ≤ s ∧ s ≤ 90 ∧ -180 ≤ e ∧ e ≤ 180 ∧
      -180 ≤ w ∧ w ≤ 180 ∧ s < n ∧ w < e then
    some ⟨n, s, e, w⟩
  else none

/-- One fabricated grid point of `_generate_grid_points`: cell `(i, j)` of
the 10×10 grid, centred in its cell; its score is drawn from
`np.random.uniform(0.3, 0.9)`, modelled by the oracle `rng` consumed in
row-major order. -/
def gridPoint (b : MapBoundsQ) (rng : ℕ → ℚ) (i j : ℕ) : MapPoint :=
  { id := s!"grid_{i}_{j}"
    lat := b.south + ((i : ℚ) + 1/2) * ((b.north - b.south) / 10)
    lng := b.west + ((j : ℚ) + 1/2) * ((b.east - b.west) / 10)
    score := rng (10 * i + j)
    color := getColorForScore (rng (10 * i + j)) }

/-- `PredictionService._generate_grid_points`: the full 10×10 fabricated
grid, row-major. -/
def generate_grid_points (b : MapBoundsQ) (rng : ℕ → ℚ) : List MapPoint :=
  (List.range 10).flatMap fun i => (List.range 10).map fun j => gridPoint b rng i j

/-- `HeatmapData`: points plus the centre of the bounds. -/
structure HeatmapPayload where
  points : List MapPoint
  centerLat : ℚ
  centerLng : ℚ

/-- The point id `f"store_{store.tiendaId or i}"` built for a real store
(`i` is the enumeration index; Python `or` falls back on `None` and `0`). -/
def storePointId (loc : StoreLocationData) (i : ℕ) : String :=
  match loc.tiendaId with
  | some t => if t ≠ 0 then s!"store_{t}" else s!"store_{i}"
  | none => s!"store_{i}"

/-- `PredictionService.generate_heatmap`, downstream of the store search:
`stores` is the result of `get_stores_in_area` around the centre of the
bounds, and `f` gives `predict_location(store).score`.  With no stores the
fabricated placeholder grid is returned; otherwise each store is scored
and colored by `_get_color_for_score`. -/
def generate_heatmap (b : MapBoundsQ) (stores : List StoreLocationData)
    (f : StoreLocationData → ℚ) (rng : ℕ → ℚ) : HeatmapPayload :=
  if stores.isEmpty then
    { points := generate_grid_points b rng
      centerLat := (b.north + b.south) / 2
      centerLng := (b.east + b.west) / 2 }
  else
    { points := stores.enum.map (fun p =>
        { id := storePointId p.2 p.1
          lat := p.2.latitud
          lng := p.2.longitud
          score := f p.2
          color := getColorForScore (f p.2) })
      centerLat := (b.north + b.south) / 2
      centerLng := (b.east + b.west) / 2 }

/-! ## Basic scorer lemmas -/

/-- The clamped score is nonnegative. -/
theorem scoreCalc_nonneg (r : ℚ) : 0 ≤ scoreCalc r :=
  le_min (le_max_right _ _) zero_le_one

/-- The clamped score is at most one. -/
theorem scoreCalc_le_one (r : ℚ) : scoreCalc r ≤ 1 :=
  min_le_right _ _

/-- The clamped score is monotone in the ratio. -/
theorem scoreCalc_mono {r s : ℚ} (h : r ≤ s) : scoreCalc r ≤ scoreCalc s := by
  unfold scoreCalc
  have hdiv : r / (3/2) ≤ s / (3/2) := by gcongr
  exact min_le_min (max_le_max hdiv le_rfl) le_rfl

/-- The success probability is nonnegative. -/
theorem successProbability_nonneg (r : ℚ) : 0 ≤ successProbability r := by
  unfold successProbability
  split
  · exact le_rfl
  · exact le_min (le_max_right _ _) zero_le_one

/-- The success probability is at most one. -/
theorem successProbability_le_one (r : ℚ) : successProbability r ≤ 1 := by
  unfold successProbability
  split
  · exact zero_le_one
  · exact min_le_right _ _

/-- A sample validated location (the pydantic documentation example). -/
def sampleLoc : StoreLocationData :=
  ⟨none, 1, .C, .Hogar, 100, 12, 0, 2567/100, -5011/50, .Clasico⟩

/-- C1: the score computed by `predict_location` is exactly
`clamp(ratio / 1.5, 0, 1)`; it is monotonically non-decreasing in the ratio
on `[0, 1.5]`, equals `0` at ratio `0`, and equals `1` for every ratio
`≥ 1.5`. -/
theorem scoreCalc_clamp_spec :
    (∀ r : ℚ, scoreCalc r = min (max (r / (3/2)) 0) 1) ∧
    (∀ r s : ℚ, 0 ≤ r → r ≤ s → s ≤ 3/2 → scoreCalc r ≤ scoreCalc s) ∧
    scoreCalc 0 = 0 ∧
    (∀ r : ℚ, 3/2 ≤ r → scoreCalc r = 1) := by
  refine ⟨fun r => rfl, fun r s _ h _ => scoreCalc_mono h, by norm_num [scoreCalc], ?_⟩
  intro r hr
  have h1 : (1 : ℚ) ≤ r / (3/2) := by
    rw [le_div_iff₀ (by norm_num : (0:ℚ) < 3/2)]
    linarith
  unfold scoreCalc
  rw [max_eq_left (le_trans zero_le_one h1), min_eq_right h1]

/-- Witness for C1 at concrete ratios. -/
theorem scoreCalc_clamp_spec_witness :
    scoreCalc 1 = min (max ((1:ℚ) / (3/2)) 0) 1 ∧
    scoreCalc (1/2) ≤ scoreCalc 1 ∧ scoreCalc 0 = 0 ∧ scoreCalc 2 = 1 :=
  ⟨scoreCalc_clamp_spec.1 1,
   scoreCalc_clamp_spec.2.1 (1/2) 1 (by norm_num) (by norm_num) (by norm_num),
   scoreCalc_clamp_spec.2.2.1,
   scoreCalc_clamp_spec.2.2.2 2 (by norm_num)⟩

/-- C2: the success probability is `0` for every ratio `≤ 0` and equals the
clamped logistic `clamp(1 / (1 + exp(-5 * (ratio - 0.8))), 0, 1)` for every
ratio `> 0`; in particular ratio `0.8` yields exactly `1/2` and ratio `0`
yields `0`. -/
theorem successProbability_spec :
    (∀ r : ℚ, r ≤ 0 → successProbability r = 0) ∧
    (∀ r : ℚ, 0 < r →
      successProbability r =
        min (max (1 / (1 + Real.exp (-5 * ((r : ℝ) - 4/5)))) 0) 1) ∧
    successProbability (4/5) = 1/2 ∧
    successProbability 0 = 0 := by
  refine ⟨fun r h => by simp [successProbability, h],
    fun r h => by rw [successProbability, if_neg (not_le.mpr h)], ?_, ?_⟩
  · rw [successProbability, if_neg (by norm_num)]
    have harg : (-5 : ℝ) * (((4/5 : ℚ) : ℝ) - 4/5) = 0 := by push_cast; ring
    rw [harg, Real.exp_zero]
    norm_num
  · simp [successProbability]

/-- Witness for C2 at concrete ratios. -/
theorem successProbability_spec_witness :
    successProbability (-1) = 0 ∧
    successProbability 1 =
      min (max (1 / (1 + Real.exp (-5 * (((1 : ℚ) : ℝ) - 4/5)))) 0) 1 :=
  ⟨successProbability_spec.1 (-1) (by norm_num),
   successProbability_spec.2.1 1 (by norm_num)⟩

/-- C4: expected sales equal `target * ratio` whenever a sales target is
configured for the location's environment (a zero target gives
`0 = 0 * ratio` through the Python truthiness branch); a lookup table with
no entry for `"Hogar"` yields no target; and with no configured target
`predict_location` returns normally with `expectedSales = 0` instead of
raising. -/
theorem expected_sales_target_spec :
    (∀ t r : ℚ, expectedSalesCalc (some t) r = t * r) ∧
    (∀ targets : List (String × ℚ), (∀ p ∈ targets, p.1 ≠ "Hogar") →
      get_sales_target_for_environment targets "Hogar" = none) ∧
    (∀ (targets : List (String × ℚ)) (r : ℚ) (loc : StoreLocationData),
      get_sales_target_for_environment targets (entornoToString loc.entorno) = none →
      ∃ resp, predict_location targets r loc = Except.ok resp ∧
        resp.expectedSales = 0) := by
  refine ⟨?_, ?_, ?_⟩
  · intro t r
    by_cases h : t = 0 <;> simp [expectedSalesCalc, h]
  · intro targets h
    have hfind : targets.find? (fun p => decide (p.1 = "Hogar")) = none := by
      rw [List.find?_eq_none]
      intro p hp
      simpa using h p hp
    simp [get_sales_target_for_environment, hfind]
  · intro targets r loc h
    refine ⟨⟨scoreCalc r, 0, successProbability r, recommendationText (scoreCalc r)⟩, ?_, rfl⟩
    simp [predict_location, h, expectedSalesCalc, mkPredictionResponse,
      scoreCalc_nonneg, scoreCalc_le_one, successProbability_nonneg,
      successProbability_le_one]

/-- Witness for C4 at concrete inputs. -/
theorem expected_sales_target_spec_witness :
    expectedSalesCalc (some 100) 2 = 100 * 2 ∧
    get_sales_target_for_environment [("Base", 480000)] "Hogar" = none ∧
    ∃ resp, predict_location [] 1 sampleLoc = Except.ok resp ∧
      resp.expectedSales = 0 :=
  ⟨expected_sales_target_spec.1 100 2,
   expected_sales_target_spec.2.1 [("Base", 480000)] (by decide),
   expected_sales_target_spec.2.2 [] 1 sampleLoc (by decide)⟩

/-- C9: when a positive sales target is configured for the location's
environment and the model predicts a negative performance ratio, the
expected sales `target * ratio` are negative, the `expectedSales ≥ 0`
constraint of `PredictionResponse` fails at construction, and
`predict_location` raises instead of returning a response. -/
theorem predict_negative_sales_errors (targets : List (String × ℚ)) (t r : ℚ)
    (loc : StoreLocationData)
    (ht : get_sales_target_for_environment targets (entornoToString loc.entorno) = some t)
    (htpos : 0 < t) (hr : r < 0) :
    ∃ msg, predict_location targets r loc = Except.error msg := by
  refine ⟨"expectedSales out of range", ?_⟩
  have h2 : ¬ ((0 : ℚ) ≤ t * r) := not_le.mpr (mul_neg_of_pos_of_neg htpos hr)
  simp [predict_location, ht, expectedSalesCalc, htpos.ne', mkPredictionResponse,
    scoreCalc_nonneg, scoreCalc_le_one, h2]

/-- Witness for C9: a configured target of 100 with predicted ratio -1. -/
theorem predict_negative_sales_errors_witness :
    ∃ msg, predict_location [("Hogar", 100)] (-1) sampleLoc = Except.error msg :=
  predict_negative_sales_errors [("Hogar", 100)] 100 (-1) sampleLoc (by rfl)
    (by norm_num) (by norm_num)

/-! ## Validation failures on unknown categories (C6) -/

/-- A string outside the socioeconomic enumeration does not decode. -/
theorem nivelOfString_eq_none {s : String} (h : s ∉ nivelStrings) :
    nivelOfString s = none := by
  simp [nivelStrings] at h
  obtain ⟨h1, h2, h3, h4, h5, h6, h7⟩ := h
  simp [nivelOfString, h1, h2, h3, h4, h5, h6, h7]

/-- A string outside the environment enumeration does not decode. -/
theorem entornoOfString_eq_none {s : String} (h : s ∉ entornoStrings) :
    entornoOfString s = none := by
  simp [entornoStrings] at h
  obtain ⟨h1, h2, h3, h4⟩ := h
  simp [entornoOfString, h1, h2, h3, h4]

/-- A string outside the master-segment enumeration does not decode. -/
theorem segmentoOfString_eq_none {s : String} (h : s ∉ segmentoStrings) :
    segmentoOfString s = none := by
  simp [segmentoStrings] at h
  obtain ⟨h1, h2, h3, h4, h5⟩ := h
  simp [segmentoOfString, h1, h2, h3, h4, h5]

/-- C6: a raw record whose socioeconomic level, environment, or master
segment lies outside its closed enumeration is rejected by the pydantic
validators, so the encoding pipeline fails with a validation error and
never produces a feature vector (in particular, never an all-zero or
wrong-length one). -/
theorem encode_invalid_category_fails (ds : List TrainRecord) (raw : RawStoreLocation)
    (h : raw.nivelSocioeconomico ∉ nivelStrings ∨ raw.entorno ∉ entornoStrings ∨
      raw.segmentoMaestro ∉ segmentoStrings) :
    encodePipeline ds raw = none := by
  have hparse : parseStoreLocation raw = none := by
    rcases h with h | h | h
    · simp [parseStoreLocation, nivelOfString_eq_none h]
    · cases hn : nivelOfString raw.nivelSocioeconomico <;>
        simp [parseStoreLocation, hn, entornoOfString_eq_none h]
    · cases hn : nivelOfString raw.nivelSocioeconomico <;>
        cases he : entornoOfString raw.entorno <;>
          simp [parseStoreLocation, hn, he, segmentoOfString_eq_none h]
  simp [encodePipeline, hparse]

/-- A raw record with a socioeconomic level outside the enumeration. -/
def badRaw : RawStoreLocation :=
  ⟨none, 1, "Z", "Hogar", 100, 12, 0, 25, -100, "Clásico"⟩

/-- Witness for C6: the out-of-enumeration record is rejected. -/
theorem encode_invalid_category_fails_witness :
    encodePipeline [] badRaw = none :=
  encode_invalid_category_fails [] badRaw (Or.inl (by decide))

/-! ## Dataset dependence of the encoding (C3, C7)

`store_location_to_features` re-derives the canonical column order from the
currently loaded dataset on every call (`X_train, _ = self.get_training_data()`),
so the emitted vector depends on which categories the *other* records of the
dataset happen to contain. -/

/-- A dataset whose records cover socioeconomic levels {A, AB}. -/
def dsA : List TrainRecord :=
  [⟨.A, .Base, .BarrioCompetido⟩, ⟨.AB, .Base, .BarrioCompetido⟩]

/-- The dataset `dsA` with its second record removed: socioeconomic levels
now cover only {A}. -/
def dsB : List TrainRecord := [⟨.A, .Base, .BarrioCompetido⟩]

/-- C3 counterexample: encoding the same location against two datasets that
differ only in one other record produces different feature vectors (the
dummy column `nivelSocioeconomico_AB` exists only for `dsA`), refuting the
claim that the encoding is independent of the other records present in the
loaded dataset. -/
theorem features_depend_on_dataset_counterexample :
    store_location_to_features dsA sampleLoc ≠ store_location_to_features dsB sampleLoc := by
  intro hEq
  have hlen := congrArg List.length hEq
  simp [store_location_to_features, featureOrder, trainNivelCols, trainEntornoCols,
    trainSegmentoCols, presentNivel, presentEntorno, presentSegmento,
    dsA, dsB, nivelCats, entornoCats, segmentoCats, numericCols] at hlen

/-- C3 (amended): the feature encoding is a deterministic function of the
location together with the dataset's per-attribute category inventory — two
datasets presenting the same category sets yield byte-identical vectors for
the same location. -/
theorem features_category_inventory_spec (ds1 ds2 : List TrainRecord)
    (loc : StoreLocationData)
    (h1 : presentNivel ds1 = presentNivel ds2)
    (h2 : presentEntorno ds1 = presentEntorno ds2)
    (h3 : presentSegmento ds1 = presentSegmento ds2) :
    store_location_to_features ds1 loc = store_location_to_features ds2 loc := by
  simp [store_location_to_features, featureOrder, trainNivelCols, trainEntornoCols,
    trainSegmentoCols, h1, h2, h3]

/-- Witness for C3 (amended): duplicating a record leaves the category
inventory, and hence the vector, unchanged. -/
theorem features_category_inventory_spec_witness :
    store_location_to_features dsB sampleLoc =
      store_location_to_features (dsB ++ dsB) sampleLoc :=
  features_category_inventory_spec dsB (dsB ++ dsB) sampleLoc
    (by decide) (by decide) (by decide)

/-- A dataset whose socioeconomic levels cover only {B, C}. -/
def dsC : List TrainRecord :=
  [⟨.B, .Base, .BarrioCompetido⟩, ⟨.C, .Base, .BarrioCompetido⟩]

/-- C7 counterexample: against a dataset whose socioeconomic levels are
{B, C}, the emitted indicator block for the attribute is just
`[nivelSocioeconomico_C]` — category `B`, which is not the enumeration's
first category `A`, gets no indicator column, and the omitted reference is
`B` rather than `A`.  The encoder therefore does not emit one indicator per
enumeration category except the first. -/
theorem drop_first_depends_on_dataset_counterexample :
    trainNivelCols dsC = [Nivel.C] ∧
    Col.niv Nivel.B ∉ featureOrder dsC ∧
    Nivel.B ≠ Nivel.A ∧ nivelCats.drop 1 ≠ [Nivel.C] := by decide

/-- C7 (amended): whenever the loaded dataset contains every category of
every enumeration (the intended deployment), the encoder emits exactly one
indicator column per category except the first of each enumeration; the
omitted references are the same for every input location (the column list
does not depend on the location), and a location carrying a reference
category is encoded with an all-zero indicator block for that
enumeration. -/
theorem encoder_reference_category_spec (ds : List TrainRecord)
    (h1 : ∀ c : Nivel, c ∈ presentNivel ds)
    (h2 : ∀ c : Entorno, c ∈ presentEntorno ds)
    (h3 : ∀ c : Segmento, c ∈ presentSegmento ds) :
    trainNivelCols ds = nivelCats.drop 1 ∧
    trainEntornoCols ds = entornoCats.drop 1 ∧
    trainSegmentoCols ds = segmentoCats.drop 1 ∧
    (∀ loc loc' : StoreLocationData,
      (store_location_to_features ds loc).length =
        (store_location_to_features ds loc').length) ∧
    (∀ loc : StoreLocationData, loc.nivelSocioeconomico = Nivel.A →
      ∀ c ∈ trainNivelCols ds, colValue loc (Col.niv c) = 0) ∧
    (∀ loc : StoreLocationData, loc.entorno = Entorno.Base →
      ∀ c ∈ trainEntornoCols ds, colValue loc (Col.ent c) = 0) ∧
    (∀ loc : StoreLocationData, loc.segmentoMaestro = Segmento.BarrioCompetido →
      ∀ c ∈ trainSegmentoCols ds, colValue loc (Col.seg c) = 0) := by
  have e1 : presentNivel ds = nivelCats :=
    List.filter_eq_self.mpr fun a _ => (List.mem_filter.mp (h1 a)).2
  have e2 : presentEntorno ds = entornoCats :=
    List.filter_eq_self.mpr fun a _ => (List.mem_filter.mp (h2 a)).2
  have e3 : presentSegmento ds = segmentoCats :=
    List.filter_eq_self.mpr fun a _ => (List.mem_filter.mp (h3 a)).2
  refine ⟨by rw [trainNivelCols, e1], by rw [trainEntornoCols, e2],
    by rw [trainSegmentoCols, e3], ?_, ?_, ?_, ?_⟩
  · intro loc loc'
    simp [store_location_to_features]
  · intro loc hA c hc
    rw [trainNivelCols, e1] at hc
    simp [nivelCats] at hc
    rcases hc with rfl | rfl | rfl | rfl | rfl | rfl <;> simp [colValue, hA]
  · intro loc hB c hc
    rw [trainEntornoCols, e2] at hc
    simp [entornoCats] at hc
    rcases hc with rfl | rfl | rfl <;> simp [colValue, hB]
  · intro loc hS c hc
    rw [trainSegmentoCols, e3] at hc
    simp [segmentoCats] at hc
    rcases hc with rfl | rfl | rfl | rfl <;> simp [colValue, hS]

/-- A dataset covering every category of every enumeration. -/
def dsFull : List TrainRecord :=
  [⟨.A, .Base, .BarrioCompetido⟩, ⟨.AB, .Hogar, .Clasico⟩,
   ⟨.B, .Peatonal, .HogarReunion⟩, ⟨.BC, .Receso, .Oficinistas⟩,
   ⟨.C, .Base, .ParadaTecnica⟩, ⟨.CD, .Base, .BarrioCompetido⟩,
   ⟨.D, .Base, .BarrioCompetido⟩]

/-- Witness for C7 (amended) on the full-coverage dataset. -/
theorem encoder_reference_category_spec_witness :
    trainNivelCols dsFull = nivelCats.drop 1 :=
  (encoder_reference_category_spec dsFull (by decide) (by decide) (by decide)).1

/-! ## Ranking lemmas (C5)

Python's `list.sort(key=..., reverse=True)` is a stable descending sort; the
model uses `insertionSort` with the reflexive descending relation, which is
stable: filtering the sorted list by any key value returns exactly the
input's subsequence with that key. -/

/-- Inserting an element whose key is not `k` leaves the `k`-filtered
subsequence unchanged. -/
theorem filter_orderedInsert_of_ne {α β : Type} [LinearOrder β] (f : α → β) (k : β)
    (a : α) (l : List α) (h : ¬ (f a = k)) :
    (List.orderedInsert (fun x y => f y ≤ f x) a l).filter (fun x => decide (f x = k)) =
      l.filter (fun x => decide (f x = k)) := by
  induction l with
  | nil => simp [List.orderedInsert, h]
  | cons b l ih =>
    rw [List.orderedInsert]
    split
    · simp [h]
    · simp only [List.filter_cons]
      rw [ih]

/-- Inserting an element whose key is `k` puts it in front of every later
element with key `k`: only elements with strictly greater keys are passed
over, and none of those has key `k`. -/
theorem filter_orderedInsert_of_eq {α β : Type} [LinearOrder β] (f : α → β) (k : β)
    (a : α) (l : List α) (h : f a = k) :
    (List.orderedInsert (fun x y => f y ≤ f x) a l).filter (fun x => decide (f x = k)) =
      a :: l.filter (fun x => decide (f x = k)) := by
  induction l with
  | nil => simp [List.orderedInsert, h]
  | cons b l ih =>
    rw [List.orderedInsert]
    split_ifs with hr
    · simp [h]
    · have hb : ¬ (f b = k) := fun hbk => hr (le_of_eq (hbk.trans h.symm))
      simp only [List.filter_cons, hb, decide_eq_true_eq, if_neg, ih]
      simp [hb]

/-- Stability of the descending insertion sort: filtering by any key value
commutes with sorting. -/
theorem filter_insertionSort_stable {α β : Type} [LinearOrder β] (f : α → β) (k : β)
    (l : List α) :
    (l.insertionSort (fun x y => f y ≤ f x)).filter (fun x => decide (f x = k)) =
      l.filter (fun x => decide (f x = k)) := by
  induction l with
  | nil => rfl
  | cons a l ih =>
    rw [List.insertionSort]
    by_cases h : f a = k
    · rw [filter_orderedInsert_of_eq f k a _ h, ih, List.filter_cons]
      simp [h]
    · rw [filter_orderedInsert_of_ne f k a _ h, ih, List.filter_cons]
      simp [h]

/-- C5: the area ranking returns at most five stores, sorted in
non-increasing order of score, and ties keep the input order: for every
score value, the output's stores with that score are an order-preserving
subsequence of the input's stores with that score. -/
theorem optimal_locations_ranking_spec {α β : Type} [LinearOrder β] (f : α → β)
    (stores : List α) :
    (get_optimal_locations f stores).length ≤ 5 ∧
    ((get_optimal_locations f stores).map f).Sorted (fun a b => b ≤ a) ∧
    (∀ k : β, List.Sublist
      ((get_optimal_locations f stores).filter (fun x => decide (f x = k)))
      (stores.filter (fun x => decide (f x = k)))) := by
  unfold get_optimal_locations
  split
  · exact ⟨by simp, by simp, fun k => by simp⟩
  · haveI : IsTotal α (fun x y => f y ≤ f x) := ⟨fun a b => le_total (f b) (f a)⟩
    haveI : IsTrans α (fun x y => f y ≤ f x) :=
      ⟨fun _ _ _ hab hbc => le_trans hbc hab⟩
    refine ⟨by simp, ?_, ?_⟩
    · have hs : List.Sorted (fun x y => f y ≤ f x)
          ((stores.insertionSort (fun x y => f y ≤ f x)).take 5) :=
        List.Pairwise.sublist (List.take_sublist 5 _)
          (List.sorted_insertionSort _ stores)
      exact List.pairwise_map.mpr hs
    · intro k
      have h1 := (List.take_sublist 5
          (stores.insertionSort (fun x y => f y ≤ f x))).filter
          (fun x => decide (f x = k))
      rwa [filter_insertionSort_stable f k stores] at h1

/-- Witness for C5 on a concrete list. -/
theorem optimal_locations_ranking_spec_witness :
    (get_optimal_locations (fun n : ℕ => n) [3, 1, 2]).length ≤ 5 :=
  (optimal_locations_ranking_spec (fun n : ℕ => n) [3, 1, 2]).1

/-! ## Heatmap grid lemmas (C8, C10) -/

/-- The centre of any of the ten cells of a positively oriented interval
lies strictly inside the interval. -/
theorem cell_center_bounds {lo hi x : ℚ} (hlt : lo < hi) (hx0 : 0 ≤ x) (hx9 : x ≤ 9) :
    lo < lo + (x + 1/2) * ((hi - lo) / 10) ∧ lo + (x + 1/2) * ((hi - lo) / 10) < hi := by
  have hd : 0 < hi - lo := sub_pos.mpr hlt
  have h1 : 0 < (x + 1/2) * ((hi - lo) / 10) :=
    mul_pos (by linarith) (by linarith)
  have h2 : (x + 1/2) * ((hi - lo) / 10) ≤ (19/2) * ((hi - lo) / 10) :=
    mul_le_mul_of_nonneg_right (by linarith) (by linarith)
  constructor
  · linarith
  · linarith

/-- A fabricated grid point of a cell `(i, j)`, `i, j < 10`, lies strictly
inside valid bounds. -/
theorem gridPoint_strictly_inside (b : MapBoundsQ) (rng : ℕ → ℚ) (i j : ℕ)
    (hi : i < 10) (hj : j < 10) (hns : b.south < b.north) (hwe : b.west < b.east) :
    b.south < (gridPoint b rng i j).lat ∧ (gridPoint b rng i j).lat < b.north ∧
    b.west < (gridPoint b rng i j).lng ∧ (gridPoint b rng i j).lng < b.east := by
  have hi9 : ((i : ℚ)) ≤ 9 := by exact_mod_cast Nat.lt_succ_iff.mp hi
  have hj9 : ((j : ℚ)) ≤ 9 := by exact_mod_cast Nat.lt_succ_iff.mp hj
  have hlat := cell_center_bounds hns (Nat.cast_nonneg i) hi9
  have hlng := cell_center_bounds hwe (Nat.cast_nonneg j) hj9
  exact ⟨hlat.1, hlat.2, hlng.1, hlng.2⟩

/-- Membership in the fabricated grid: exactly the 10×10 cell centres. -/
theorem mem_generate_grid_points (b : MapBoundsQ) (rng : ℕ → ℚ) (p : MapPoint) :
    p ∈ generate_grid_points b rng ↔
      ∃ i j : ℕ, i < 10 ∧ j < 10 ∧ p = gridPoint b rng i j := by
  simp only [generate_grid_points, List.mem_flatMap, List.mem_map, List.mem_range]
  constructor
  · rintro ⟨i, hi, j, hj, rfl⟩
    exact ⟨i, j, hi, hj, rfl⟩
  · rintro ⟨i, j, hi, hj, rfl⟩
    exact ⟨i, hi, j, hj, rfl⟩

/-- The four color buckets of `_get_color_for_score`. -/
theorem getColorForScore_buckets (sc : ℚ) :
    (4/5 ≤ sc → getColorForScore sc = "#10b981") ∧
    (3/5 ≤ sc → sc < 4/5 → getColorForScore sc = "#3b82f6") ∧
    (2/5 ≤ sc → sc < 3/5 → getColorForScore sc = "#f59e0b") ∧
    (sc < 2/5 → getColorForScore sc = "#ef4444") := by
  refine ⟨fun h => ?_, fun h h' => ?_, fun h h' => ?_, fun h => ?_⟩
  · rw [getColorForScore, if_pos h]
  · rw [getColorForScore, if_neg (not_le.mpr h'), if_pos h]
  · rw [getColorForScore, if_neg (not_le.mpr (h'.trans_le (by norm_num))),
      if_neg (not_le.mpr h'), if_pos h]
  · rw [getColorForScore, if_neg (not_le.mpr (h.trans_le (by norm_num))),
      if_neg (not_le.mpr (h.trans_le (by norm_num))), if_neg (not_le.mpr h)]

/-- C8: on a valid bounds rectangle for which the store search came back
empty, the heatmap is the fabricated grid: exactly 100 points, precisely
the centres of a uniform 10×10 grid strictly inside the bounds, each with a
score in `[0.3, 0.9]` (the `np.random.uniform(0.3, 0.9)` oracle); and every
heatmap point — fabricated or built from a real store — carries the color
of its score under the four thresholds green `≥ 0.8`, blue `≥ 0.6`, amber
`≥ 0.4`, red otherwise. -/
theorem heatmap_grid_spec (b : MapBoundsQ) (f : StoreLocationData → ℚ) (rng : ℕ → ℚ)
    (hns : b.south < b.north) (hwe : b.west < b.east)
    (hrng : ∀ n, 3/10 ≤ rng n ∧ rng n < 9/10) :
    (generate_heatmap b [] f rng).points = generate_grid_points b rng ∧
    (generate_grid_points b rng).length = 100 ∧
    (∀ p ∈ generate_grid_points b rng,
      ∃ i j : ℕ, i < 10 ∧ j < 10 ∧ p = gridPoint b rng i j) ∧
    (∀ i j : ℕ, i < 10 → j < 10 →
      gridPoint b rng i j ∈ generate_grid_points b rng) ∧
    (∀ p ∈ generate_grid_points b rng,
      3/10 ≤ p.score ∧ p.score ≤ 9/10 ∧
      b.south < p.lat ∧ p.lat < b.north ∧ b.west < p.lng ∧ p.lng < b.east) ∧
    (∀ stores, ∀ p ∈ (generate_heatmap b stores f rng).points,
      p.color = getColorForScore p.score) ∧
    (∀ sc : ℚ, (4/5 ≤ sc → getColorForScore sc = "#10b981") ∧
      (3/5 ≤ sc → sc < 4/5 → getColorForScore sc = "#3b82f6") ∧
      (2/5 ≤ sc → sc < 3/5 → getColorForScore sc = "#f59e0b") ∧
      (sc < 2/5 → getColorForScore sc = "#ef4444")) := by
  refine ⟨rfl, rfl, ?_, ?_, ?_, ?_, getColorForScore_buckets⟩
  · intro p hp
    exact (mem_generate_grid_points b rng p).mp hp
  · intro i j hi hj
    exact (mem_generate_grid_points b rng _).mpr ⟨i, j, hi, hj, rfl⟩
  · intro p hp
    obtain ⟨i, j, hi, hj, rfl⟩ := (mem_generate_grid_points b rng p).mp hp
    have hin := gridPoint_strictly_inside b rng i j hi hj hns hwe
    exact ⟨(hrng (10 * i + j)).1, le_of_lt (hrng (10 * i + j)).2,
      hin.1, hin.2.1, hin.2.2.1, hin.2.2.2⟩
  · intro stores p hp
    unfold generate_heatmap at hp
    split at hp
    · obtain ⟨i, j, _, _, rfl⟩ := (mem_generate_grid_points b rng p).mp hp
      rfl
    · simp only [List.mem_map] at hp
      obtain ⟨q, _, rfl⟩ := hp
      rfl

/-- Concrete valid bounds for the witnesses. -/
def bWitness : MapBoundsQ := ⟨1, 0, 1, 0⟩

/-- Witness for C8 on concrete bounds and a constant score oracle. -/
theorem heatmap_grid_spec_witness :
    (generate_grid_points bWitness (fun _ => 1/2)).length = 100 :=
  (heatmap_grid_spec bWitness (fun _ => 0) (fun _ => 1/2)
    (by norm_num [bWitness]) (by norm_num [bWitness])
    (fun _ => ⟨by norm_num, by norm_num⟩)).2.1

/-- C10 counterexample: `north = 100 > south = 0` and `east = 10 > west = 0`,
yet `MapBounds` construction fails, because `north` violates the `le=90`
field constraint — so construction succeeding is not equivalent to
`north > south ∧ east > west` alone. -/
theorem mapBounds_iff_counterexample :
    mkMapBounds 100 0 10 0 = none ∧ (0 : ℚ) < 100 ∧ (0 : ℚ) < 10 := by
  refine ⟨?_, by norm_num, by norm_num⟩
  norm_num [mkMapBounds]

/-- C10 (amended): for coordinates within the pydantic field ranges
(`north, south ∈ [0, 90]`, `east, west ∈ [-180, 180]`), `MapBounds`
construction succeeds exactly when `north > south` and `east > west`, both
strictly; consequently the fabricated fallback grid is only ever built for
a non-degenerate rectangle, and each of its points lies strictly between
south and north and strictly between west and east. -/
theorem mapBounds_validation_spec (n s e w : ℚ)
    (hn : 0 ≤ n ∧ n ≤ 90) (hs : 0 ≤ s ∧ s ≤ 90)
    (he : -180 ≤ e ∧ e ≤ 180) (hw : -180 ≤ w ∧ w ≤ 180) :
    ((mkMapBounds n s e w).isSome ↔ (s < n ∧ w < e)) ∧
    (∀ b, mkMapBounds n s e w = some b → ∀ rng : ℕ → ℚ,
      ∀ p ∈ generate_grid_points b rng,
        b.south < p.lat ∧ p.lat < b.north ∧ b.west < p.lng ∧ p.lng < b.east) := by
  constructor
  · unfold mkMapBounds
    by_cases hc : s < n ∧ w < e
    · rw [if_pos ⟨hn.1, hn.2, hs.1, hs.2, he.1, he.2, hw.1, hw.2, hc.1, hc.2⟩]
      exact iff_of_true (by simp) hc
    · rw [if_neg fun hfull =>
        hc ⟨hfull.2.2.2.2.2.2.2.2.1, hfull.2.2.2.2.2.2.2.2.2⟩]
      exact iff_of_false (by simp) hc
  · intro b hb rng p hp
    unfold mkMapBounds at hb
    split_ifs at hb with hcond
    obtain rfl : MapBoundsQ.mk n s e w = b := Option.some.inj hb
    obtain ⟨i, j, hi, hj, rfl⟩ := (mem_generate_grid_points _ rng p).mp hp
    exact gridPoint_strictly_inside _ rng i j hi hj
      hcond.2.2.2.2.2.2.2.2.1 hcond.2.2.2.2.2.2.2.2.2

/-- Witness for C10 (amended) on concrete coordinates. -/
theorem mapBounds_validation_spec_witness :
    (mkMapBounds 1 0 1 0).isSome ↔ ((0 : ℚ) < 1 ∧ (0 : ℚ) < 1) :=
  (mapBounds_validation_spec 1 0 1 0 (by norm_num) (by norm_num)
    (by norm_num) (by norm_num)).1
